import Mathlib

/-!
Shallow embedding of the BOLT-SDK TypeScript client.

Sources embedded here:
- `src/BoltAPIRoutes.ts`: the route registry (`BoltApiRoutes`, `BoltApiRoute`,
  `BOLTApiRouteMethods`).
- `src/unnamed/part_000` (`BOLTCookieManager.ts`): the session/cookie store.
- `src/BOLTApi.ts`: configuration resolution, query-string builder, request
  dispatcher, session controller and the endpoint methods.

Modelling conventions:
- JavaScript runtime values passed as positional query arguments are modelled
  by `JSVal` (numbers as `Int`, strings as `String`); `jsToString` is the
  `.toString()` conversion the builder applies.  The claims only exercise
  integral numbers and strings.
- `Date` values are modelled as `Int` milliseconds since the epoch; the
  floating-point division `ms / 3600000 > hours` in `isExpired` is rendered
  exactly as `ms > hours * 3600000`.
- Mutable static fields of `BOLTCookieManager` become an explicit `CMState`
  record threaded through the operations; `null` becomes `none`.
- Thrown `Error(msg)` becomes `Except.error msg`; a built (not yet sent) HTTP
  request becomes the `Request` record.  `fetch` itself is not modelled: the
  observable behaviour up to the network boundary is the `Request` value, and
  `authenticate` additionally reports how many network calls it performs.
- JavaScript truthiness on strings (`!s` true for `null`/`""`) and on objects
  (`null` falsy, any `Date` truthy) is rendered faithfully at each use site.
-/

/-- A JavaScript value usable as a positional query argument. -/
inductive JSVal where
  | num (n : Int)
  | str (s : String)
deriving DecidableEq, Repr

/-- JavaScript `.toString()` on the values above (integral numbers print as in JS). -/
def jsToString : JSVal → String
  | .num n => toString n
  | .str s => s

/-- Enum `BOLTApiRouteMethods` from `src/BoltAPIRoutes.ts`. -/
inductive BOLTApiRouteMethods where
  | GET | POST | PUT | DELETE | PATCH | NONE | ALL
deriving DecidableEq, Repr

/-- Interface `BoltApiRoute` from `src/BoltAPIRoutes.ts`; `params` is optional there. -/
structure BoltApiRoute where
  path : String
  method : BOLTApiRouteMethods
  description : String
  params : Option (List String)
deriving DecidableEq, Repr

namespace BoltApiRoutes

def apiRoot : BoltApiRoute :=
  { path := "/boltAppRoot/api/", method := .NONE,
    description := "Base route for the Bolt API, returns API version and available endpoints.",
    params := none }

def login : BoltApiRoute :=
  { path := "/login/", method := .POST,
    description := "Authenticates a user and establishes a session.",
    params := none }

def me : BoltApiRoute :=
  { path := "/me/", method := .GET,
    description := "Retrieves details about the currently authenticated user.",
    params := none }

def usersById : BoltApiRoute :=
  { path := "/users/", method := .GET,
    description := "Retrieves details for a specific user by ID.",
    params := some [":id"] }

def loadsById : BoltApiRoute :=
  { path := "/loads/", method := .GET,
    description := "Retrieves details for a specific load by ID.",
    params := some [":id"] }

def loadSegments : BoltApiRoute :=
  { path := "/load_segments/", method := .GET,
    description := "Retrieves load segments, typically filtered by load ID.",
    params := none }

def gpsBreadcrumbsByLoadId : BoltApiRoute :=
  { path := "/breadcrumbs/", method := .GET,
    description := "Retrieves breadcrumb data for a specific load by ID.",
    params := some [":load_id"] }

def loadBoard : BoltApiRoute :=
  { path := "/load_board/", method := .GET,
    description := "Retrieves the load board shipments, typically filtered by various parameters.",
    params := some [":load_status"] }

def loadBoardShipments : BoltApiRoute :=
  { path := "/load_board/shipments/", method := .GET,
    description := "Retrieves shipments from the load board, filtered by status.",
    params := some [":load_status"] }

def shipmentsByLoadId : BoltApiRoute :=
  { path := "/shipments/", method := .GET,
    description := "Retrieves shipment data for a specific load by ID.",
    params := some [":load_id"] }

def shipTo : BoltApiRoute :=
  { path := "/shipto/", method := .GET,
    description := "Retrieves all shipping locations.",
    params := none }

def shipToById : BoltApiRoute :=
  { path := "/shipto/", method := .GET,
    description := "Retrieves a specific shipping location by ID.",
    params := some [":id"] }

def billToLocations : BoltApiRoute :=
  { path := "/billto/", method := .GET,
    description := "Retrieves all billing locations (Customers).",
    params := none }

def equipment : BoltApiRoute :=
  { path := "/equipment/", method := .GET,
    description := "Retrieves all equipment, dollies, containers, etc., in the database.",
    params := none }

def segments : BoltApiRoute :=
  { path := "/segments/", method := .GET,
    description := "Retrieves all segments for a specific load.",
    params := some [":load_id"] }

def trailers : BoltApiRoute :=
  { path := "/trailers/", method := .GET,
    description := "Retrieves all trailers in the database.",
    params := none }

def trailersById : BoltApiRoute :=
  { path := "/trailers/", method := .GET,
    description := "Retrieves a specific trailer by ID.",
    params := some [":id"] }

def trucks : BoltApiRoute :=
  { path := "/trucks/", method := .GET,
    description := "Retrieves all trucks in the database.",
    params := none }

def trucksById : BoltApiRoute :=
  { path := "/trucks/", method := .GET,
    description := "Retrieves a specific truck by ID.",
    params := some [":id"] }

def users : BoltApiRoute :=
  { path := "/users/", method := .GET,
    description := "Retrieves all users in the system.",
    params := none }

end BoltApiRoutes

/-- Environment variables consulted by the `BOLTApi` constructor; `none` is an
unset variable (`process.env.X` being `undefined`). -/
structure Env where
  BOLT_USER_NAME : Option String
  BOLT_TENANT_URL : Option String
  BOLT_USER_PASSWORD : Option String
deriving DecidableEq, Repr

/-- The three resolved configuration values held in the static fields of `BOLTApi`. -/
structure Config where
  tenantUrl : String
  username : String
  password : String
deriving DecidableEq, Repr

def missingVarsMsg : String :=
  "Missing required variables: BOLT_TENANT_URL, BOLT_USER_NAME || username, BOLT_USER_PASSWORD || password"

/-- The `BOLTApi` constructor (`src/BOLTApi.ts` lines 36-50) run from the initial
static state (all three static fields `null`).  `a ?? b ?? c` is JavaScript
nullish coalescing, i.e. the first non-`undefined`/non-`null` operand wins,
rendered as `(a <|> b).getD c`; note an explicit empty-string argument is NOT
nullish and therefore wins the coalescing chain.  The final validation throws
when any resolved value is falsy (the empty string). -/
def resolveConfig (username password : Option String) (env : Env) : Except String Config :=
  let u := (username <|> env.BOLT_USER_NAME).getD ""
  let t := (env.BOLT_TENANT_URL).getD ""
  let p := (password <|> env.BOLT_USER_PASSWORD).getD ""
  if t = "" ∨ u = "" ∨ p = "" then .error missingVarsMsg
  else .ok { tenantUrl := t, username := u, password := p }

/-- The spec reading of one configuration value: the first NON-EMPTY value among
the explicit constructor argument and the environment-sourced default, else
empty.  Written from the spec sentence, for comparison with `resolveConfig`. -/
def specResolveValue (explicitArg envDefault : Option String) : String :=
  if explicitArg.getD "" ≠ "" then explicitArg.getD ""
  else if envDefault.getD "" ≠ "" then envDefault.getD ""
  else ""

/-- The spec reading of the whole constructor: each value is the first non-empty
candidate, and construction fails iff some resolved value is empty.  The tenant
base URL has no constructor argument in the source, so its explicit argument is
always absent.  Written from the spec sentence, for comparison with
`resolveConfig`. -/
def specResolveConfig (username password : Option String) (env : Env) : Except String Config :=
  let u := specResolveValue username env.BOLT_USER_NAME
  let t := specResolveValue none env.BOLT_TENANT_URL
  let p := specResolveValue password env.BOLT_USER_PASSWORD
  if t = "" ∨ u = "" ∨ p = "" then .error missingVarsMsg
  else .ok { tenantUrl := t, username := u, password := p }

/-- The amended-claim reading of one value: the first PRESENT candidate wins,
even when it is empty (this is what nullish coalescing does). -/
def resolvedVal (explicitArg envDefault : Option String) : String :=
  match explicitArg with
  | some s => s
  | none => envDefault.getD ""

/-- Enum `eCookieResults` from `BOLTCookieManager.ts`. -/
inductive eCookieResults where
  | FAILURE | NOT_FOUND | INVALID_COOKIE_STRUCT | EXPIRED | SET | SUCCESS
deriving DecidableEq, Repr

/-- The static fields `cookie` and `authenticatedAt` of `BOLTCookieManager`. -/
structure CMState where
  cookie : Option String
  authenticatedAt : Option Int
deriving DecidableEq, Repr

/-- The initial static state: both fields are `null`. -/
def initialState : CMState := { cookie := none, authenticatedAt := none }

/-- `BOLTCookieManager.setCookie` (lines 40-55).  The guard is JavaScript
truthiness: `!cookieValue` holds for `null`/`undefined` and for the empty
string, `!authenticatedAt` only for `null`/`undefined` (a `Date` object is
always truthy).  The `catch` branch returning `FAILURE` is dead in this model
because nothing in the body can throw. -/
def setCookie (cookieValue : Option String) (authAt : Option Int) (st : CMState) :
    eCookieResults × CMState :=
  match cookieValue, authAt with
  | some v, some t =>
      if v = "" then (.INVALID_COOKIE_STRUCT, st)
      else (.SET, { cookie := some v, authenticatedAt := some t })
  | _, _ => (.INVALID_COOKIE_STRUCT, st)

/-- `BOLTCookieManager.getCookie` (lines 57-62). -/
def getCookie (st : CMState) : Option String := st.cookie

/-- `BOLTCookieManager.getAuthenticatedAt` (lines 64-69). -/
def getAuthenticatedAt (st : CMState) : Option Int := st.authenticatedAt

/-- `BOLTCookieManager.isExpired` (lines 71-81); `now` is the current time in
milliseconds and `hours` the validity window (the source default is 8).
`(now - t) / 3600000 > hours` is rendered exactly as `now - t > hours * 3600000`. -/
def isExpired (hours : Int) (st : CMState) (now : Int) : Bool :=
  match st.authenticatedAt with
  | none => true
  | some t => now - t > hours * 3600000

/-- `BOLTCookieManager.isValid` (lines 83-88): cookie not `null` and not expired
with the default 8-hour window. -/
def isValid (st : CMState) (now : Int) : Bool :=
  st.cookie.isSome && !(isExpired 8 st now)

/-- `BOLTCookieManager.deleteCookie` (lines 90-102): clears both fields. -/
def deleteCookie (_st : CMState) : eCookieResults × CMState :=
  (.SUCCESS, { cookie := none, authenticatedAt := none })

/-- `BOLTApi.version` (the static readonly field). -/
def apiVersion : String := "v1"

/-- `BOLTApi.getApiRootPath` (lines 57-59). -/
def getApiRootPath (cfg : Config) : String :=
  cfg.tenantUrl ++ BoltApiRoutes.apiRoot.path ++ apiVersion

/-- `BOLTApi.validateIdNumber` (lines 65-67): `typeof id === 'number' && id > 0`. -/
def validateIdNumber (id : JSVal) : Bool :=
  match id with
  | .num n => 0 < n
  | .str _ => false

/-- The ternary on line 336 of `src/BOLTApi.ts`: strip one leading `:` marker
from a parameter name if present (`startsWith(':') ? substring(1) : unchanged`),
written as a match on the character data so that it reduces computationally. -/
def stripColon (p : String) : String :=
  match p.data with
  | ':' :: rest => String.mk rest
  | _ => p

/-- One `key=value` pair of the query string: `params[i]` with one leading `:`
stripped, `=`, and `args[i].toString()` (`src/BOLTApi.ts` lines 336-337). -/
def queryPair (p : String) (a : JSVal) : String :=
  stripColon p ++ "=" ++ jsToString a

/-- JavaScript `Array.prototype.join` with separator `&`. -/
def joinAmp : List String → String
  | [] => ""
  | [x] => x
  | x :: y :: rest => x ++ "&" ++ joinAmp (y :: rest)

/-- `BOLTApi.makeQueryString` (lines 322-341).  The loop over `i < plen` pushing
`key=value` pairs is rendered as a map over `List.range plen`; the in-loop
defensive check `typeof params[i] !== 'string'` cannot fire in this typed
embedding because registry params are strings, so it is omitted as dead. -/
def makeQueryString (rte : BoltApiRoute) (args : List JSVal) : Except String String :=
  match rte.params with
  | none => .ok ""
  | some params =>
    if params.length = 0 then .ok ""
    else if params.length ≠ args.length then
      .error ("Parameter count mismatch: expected " ++ toString params.length ++
        " parameters, but got " ++ toString args.length ++ " arguments.")
    else
      let memoArray := (List.range params.length).map
        (fun i => queryPair (params.getD i "") (args.getD i (.str "")))
      .ok (if memoArray.length > 0 then "?" ++ joinAmp memoArray else "")

/-- An HTTP request as assembled by the dispatcher, observable just before
`fetch` is invoked. -/
structure Request where
  url : String
  method : BOLTApiRouteMethods
  headers : List (String × String)
  body : Option String
deriving DecidableEq, Repr

/-- `BOLTApi.makeStdHeaders` (lines 350-361): sets Content-Type and Accept, and
a Cookie header when `includeAuth` holds and the stored cookie is truthy. -/
def makeStdHeaders (cm : CMState) (includeAuth : Bool) : List (String × String) :=
  [("Content-Type", "application/json"), ("Accept", "*/*")] ++
    (if includeAuth then
      match getCookie cm with
      | some c => if c = "" then [] else [("Cookie", c)]
      | none => []
    else [])

/-- `BOLTApi.makeApiRequest` (lines 301-311) up to the network boundary: decide
`includeAuth`, build the query string, compose the URL, headers and optional
JSON body, and return the request that would be passed to `fetch`. -/
def makeApiRequest (cfg : Config) (cm : CMState) (bar : BoltApiRoute)
    (body : Option String) (args : List JSVal) : Except String Request :=
  let includeAuth := bar.path ≠ BoltApiRoutes.login.path
  match makeQueryString bar args with
  | .error e => .error e
  | .ok queryString =>
    .ok { url := getApiRootPath cfg ++ bar.path ++ queryString,
          method := bar.method,
          headers := makeStdHeaders cm includeAuth,
          body := body }

/-- The login response as far as `authenticate` inspects it:
`resp.headers.get('set-cookie')`, `null` when the header is absent. -/
structure AuthResponse where
  setCookieHeader : Option String
deriving DecidableEq, Repr

/-- `BOLTApi.authenticate` (lines 73-93).  Returns the `eCookieResults`, the
number of network calls performed (0 or 1), and the cookie-store state after
the call.  `now` is the `new Date()` taken before the login dispatch; `resp`
is the response the network would return if the login dispatch happens.
`if (setCookieHeader)` and `if (cookie)` are string truthiness. -/
def authenticate (st : CMState) (now : Int) (resp : AuthResponse) :
    eCookieResults × Nat × CMState :=
  if !(isValid st now) then
    match resp.setCookieHeader with
    | some h =>
        if h = "" then (.FAILURE, 1, st)
        else
          let r := setCookie (some h) (some now) st
          (r.1, 1, r.2)
    | none => (.FAILURE, 1, st)
  else
    match getCookie st with
    | some c => if c = "" then (.FAILURE, 0, st) else (.SET, 0, st)
    | none => (.FAILURE, 0, st)

/-- `BOLTApi.getTrailers` (lines 243-246). -/
def getTrailers (cfg : Config) (cm : CMState) : Except String Request :=
  makeApiRequest cfg cm BoltApiRoutes.trailers none []

/-- `BOLTApi.getTrailersById` (lines 254-260).  Note the source dispatches the
parameterless `BoltApiRoutes.trailers` descriptor, not `trailersById`. -/
def getTrailersById (cfg : Config) (cm : CMState) (trailerId : JSVal) : Except String Request :=
  if !(validateIdNumber trailerId) then
    .error "Invalid trailerId. It must be a positive number."
  else
    makeApiRequest cfg cm BoltApiRoutes.trailers none [trailerId]

/-- `BOLTApi.getLoadsById` (lines 108-114). -/
def getLoadsById (cfg : Config) (cm : CMState) (loadId : JSVal) : Except String Request :=
  if !(validateIdNumber loadId) then
    .error "Invalid loadId. It must be a positive number."
  else
    makeApiRequest cfg cm BoltApiRoutes.loadsById none [loadId]

/-- `BOLTApi.getLoadBreadcrumbs` (lines 122-128). -/
def getLoadBreadcrumbs (cfg : Config) (cm : CMState) (loadId : JSVal) : Except String Request :=
  if !(validateIdNumber loadId) then
    .error ("Invalid loadId. It must be a positive number." ++ "  " ++ jsToString loadId ++ " was provided.")
  else
    makeApiRequest cfg cm BoltApiRoutes.gpsBreadcrumbsByLoadId none [loadId]

/-- `BOLTApi.getUsersById` (lines 158-164). -/
def getUsersById (cfg : Config) (cm : CMState) (userId : JSVal) : Except String Request :=
  if validateIdNumber userId then
    makeApiRequest cfg cm BoltApiRoutes.usersById none [userId]
  else
    .error "Invalid userId. It must be a positive number."

/-- `BOLTApi.getShipmentsByLoadId` (lines 180-186). -/
def getShipmentsByLoadId (cfg : Config) (cm : CMState) (loadId : JSVal) : Except String Request :=
  if !(validateIdNumber loadId) then
    .error "Invalid loadId. It must be a positive number."
  else
    makeApiRequest cfg cm BoltApiRoutes.shipmentsByLoadId none [loadId]

/-- `BOLTApi.getShipToById` (lines 202-208). -/
def getShipToById (cfg : Config) (cm : CMState) (shipToId : JSVal) : Except String Request :=
  if !(validateIdNumber shipToId) then
    .error "Invalid shipToId. It must be a positive number."
  else
    makeApiRequest cfg cm BoltApiRoutes.shipToById none [shipToId]

/-- `BOLTApi.getSegments` (lines 232-238). -/
def getSegments (cfg : Config) (cm : CMState) (loadId : JSVal) : Except String Request :=
  if !(validateIdNumber loadId) then
    .error "Invalid loadId. It must be a positive number."
  else
    makeApiRequest cfg cm BoltApiRoutes.segments none [loadId]

/-- `BOLTApi.getTrucksById` (lines 275-281). -/
def getTrucksById (cfg : Config) (cm : CMState) (truckId : JSVal) : Except String Request :=
  if !(validateIdNumber truckId) then
    .error "Invalid truckId. It must be a positive number."
  else
    makeApiRequest cfg cm BoltApiRoutes.trucksById none [truckId]

/-- Whether an endpoint call was rejected (threw) rather than building a request. -/
def isErr : Except String Request → Bool
  | .error _ => true
  | .ok _ => false

/-- The cookie-store states reachable from the initial static state through the
mutating operations `setCookie` and `deleteCookie` (the reads do not mutate). -/
inductive Reachable : CMState → Prop where
  | init : Reachable initialState
  | set (st : CMState) (v : Option String) (t : Option Int) :
      Reachable st → Reachable (setCookie v t st).2
  | del (st : CMState) : Reachable st → Reachable (deleteCookie st).2

/-! Helper lemmas about the query-string builder. -/

theorem rangeMap_getD_eq_zipWith (f : String → JSVal → String) :
    ∀ (ps : List String) (vs : List JSVal), ps.length = vs.length →
      (List.range ps.length).map (fun i => f (ps.getD i "") (vs.getD i (.str ""))) =
        List.zipWith f ps vs := by
  intro ps
  induction ps with
  | nil => intro vs _; simp
  | cons p ps ih =>
    intro vs h
    cases vs with
    | nil => simp at h
    | cons v vs =>
      have hlen : ps.length = vs.length := by simpa using h
      simp only [List.length_cons, List.range_succ_eq_map, List.map_cons, List.map_map,
        List.zipWith_cons_cons, List.getD_cons_zero]
      refine congrArg (List.cons _) ?_
      rw [← ih vs hlen]
      simp [Function.comp_def, List.getD_cons_succ]

theorem makeQueryString_ok (rte : BoltApiRoute) (ps : List String) (args : List JSVal)
    (hp : rte.params = some ps) (hne : ps ≠ []) (hlen : args.length = ps.length) :
    makeQueryString rte args = .ok ("?" ++ joinAmp (List.zipWith queryPair ps args)) := by
  have h0 : ¬ ps.length = 0 := fun hz => hne (List.length_eq_zero.mp hz)
  have h1 : ¬ ps.length ≠ args.length := by omega
  have h2 : (List.zipWith queryPair ps args).length > 0 := by
    rw [List.length_zipWith]; omega
  simp only [makeQueryString, hp, if_neg h0, if_neg h1,
    rangeMap_getD_eq_zipWith queryPair ps args hlen.symm, if_pos h2]

theorem joinAmp_decomp : ∀ (l : List String) (i : Nat), i < l.length →
    ∃ pre suf, joinAmp l = pre ++ l.getD i "" ++ suf := by
  intro l
  induction l with
  | nil => intro i h; simp at h
  | cons x l ih =>
    intro i h
    cases l with
    | nil =>
      cases i with
      | zero => exact ⟨"", "", by simp [joinAmp]⟩
      | succ j => simp at h
    | cons y rest =>
      cases i with
      | zero =>
        exact ⟨"", "&" ++ joinAmp (y :: rest), by simp [joinAmp, String.append_assoc]⟩
      | succ j =>
        have hj : j < (y :: rest).length := by simpa using h
        obtain ⟨pre, suf, hps⟩ := ih j hj
        exact ⟨x ++ "&" ++ pre, suf,
          by simp [joinAmp, hps, String.append_assoc, List.getD_cons_succ]⟩

theorem joinAmp_chars : ∀ (l : List String) (c : Char), c ∈ (joinAmp l).data →
    c = '&' ∨ ∃ s ∈ l, c ∈ s.data := by
  intro l
  induction l with
  | nil => intro c h; simp [joinAmp] at h
  | cons x l ih =>
    cases l with
    | nil =>
      intro c h
      right
      exact ⟨x, by simp, by simpa [joinAmp] using h⟩
    | cons y rest =>
      intro c h
      simp only [joinAmp, String.data_append] at h
      rcases List.mem_append.mp h with h1 | h2
      · rcases List.mem_append.mp h1 with hx | hamp
        · exact Or.inr ⟨x, by simp, hx⟩
        · left
          simpa using hamp
      · rcases ih c h2 with ha | ⟨s, hs, hc⟩
        · exact Or.inl ha
        · exact Or.inr ⟨s, List.mem_cons_of_mem x hs, hc⟩

theorem mem_zipWith_pair : ∀ (ps : List String) (vs : List JSVal) (s : String),
    s ∈ List.zipWith queryPair ps vs → ∃ p ∈ ps, ∃ a ∈ vs, s = queryPair p a := by
  intro ps
  induction ps with
  | nil => intro vs s h; simp at h
  | cons p ps ih =>
    intro vs s h
    cases vs with
    | nil => simp at h
    | cons v vs =>
      rcases List.mem_cons.mp h with h0 | h1
      · exact ⟨p, by simp, v, by simp, h0⟩
      · obtain ⟨p2, hp2, a2, ha2, hs⟩ := ih vs s h1
        exact ⟨p2, by simp [hp2], a2, by simp [ha2], hs⟩

theorem queryPair_chars (p : String) (a : JSVal) (c : Char) (h : c ∈ (queryPair p a).data) :
    c = '=' ∨ c ∈ (stripColon p).data ∨ c ∈ (jsToString a).data := by
  simp only [queryPair, String.data_append] at h
  rcases List.mem_append.mp h with h1 | h2
  · rcases List.mem_append.mp h1 with hk | heq
    · exact Or.inr (Or.inl hk)
    · left; simpa using heq
  · exact Or.inr (Or.inr h2)

theorem getD_zipWith_pair : ∀ (ps : List String) (vs : List JSVal) (i : Nat),
    i < ps.length → i < vs.length →
    (List.zipWith queryPair ps vs).getD i "" =
      queryPair (ps.getD i "") (vs.getD i (.str "")) := by
  intro ps
  induction ps with
  | nil => intro vs i h _; simp at h
  | cons p ps ih =>
    intro vs i hp hv
    cases vs with
    | nil => simp at hv
    | cons v vs =>
      cases i with
      | zero => simp
      | succ j =>
        have hp2 : j < ps.length := by simpa using hp
        have hv2 : j < vs.length := by simpa using hv
        simpa [List.getD_cons_succ] using ih vs j hp2 hv2

theorem makeQueryString_chars (rte : BoltApiRoute) (ps : List String) (args : List JSVal)
    (hp : rte.params = some ps) (hne : ps ≠ []) (hlen : args.length = ps.length)
    (s : String) (hs : makeQueryString rte args = .ok s) :
    ∀ c ∈ s.data, c = '?' ∨ c = '=' ∨ c = '&' ∨
      (∃ p ∈ ps, c ∈ (stripColon p).data) ∨ (∃ a ∈ args, c ∈ (jsToString a).data) := by
  rw [makeQueryString_ok rte ps args hp hne hlen] at hs
  have hseq : s = "?" ++ joinAmp (List.zipWith queryPair ps args) := by
    exact (Except.ok.injEq _ _ ▸ hs).symm ▸ rfl
  intro c hc
  rw [hseq] at hc
  rw [String.data_append] at hc
  rcases List.mem_append.mp hc with hq | hj
  · left; simpa using hq
  · rcases joinAmp_chars _ c hj with ha | ⟨pair, hpair, hcp⟩
    · exact Or.inr (Or.inr (Or.inl ha))
    · obtain ⟨p, hpmem, a, hamem, hpa⟩ := mem_zipWith_pair ps args pair hpair
      rw [hpa] at hcp
      rcases queryPair_chars p a c hcp with he | hk | hv
      · exact Or.inr (Or.inl he)
      · exact Or.inr (Or.inr (Or.inr (Or.inl ⟨p, hpmem, hk⟩)))
      · exact Or.inr (Or.inr (Or.inr (Or.inr ⟨a, hamem, hv⟩)))

/-! Claim theorems. -/

/-- C1: for every positive trailerId, `getTrailersById` dispatches the
parameterless `trailers` route descriptor, so its query string is empty, the
trailerId never reaches the URL, and the request it issues is identical to the
one issued by `getTrailers`. -/
theorem c1_getTrailersById_eq_getTrailers (cfg : Config) (cm : CMState) (n : Int)
    (h : 0 < n) :
    getTrailersById cfg cm (.num n) = getTrailers cfg cm ∧
    makeQueryString BoltApiRoutes.trailers [.num n] = .ok "" := by
  constructor
  · simp [getTrailersById, getTrailers, validateIdNumber, h, makeApiRequest, makeQueryString,
      BoltApiRoutes.trailers]
  · rfl

theorem c1_witness :
    getTrailersById { tenantUrl := "https://acme.bolt.com", username := "u", password := "p" }
        initialState (.num 5) =
      getTrailers { tenantUrl := "https://acme.bolt.com", username := "u", password := "p" }
        initialState ∧
    makeQueryString BoltApiRoutes.trailers [.num 5] = .ok "" :=
  c1_getTrailersById_eq_getTrailers _ initialState 5 (by decide)

/-- C5: `isValid` holds iff a cookie is stored and the session age is at most
the 8-hour window; concretely, after `setCookie "abc123" T0` it is valid at
T0 + 7h59m, invalid at T0 + 8h01m, and it is false with no cookie stored
(initial state or right after `deleteCookie`). -/
theorem c5_isValid_window (st : CMState) (now t0 : Int) :
    (isValid st now = true ↔
      ((∃ c, st.cookie = some c) ∧
        ∃ ta, st.authenticatedAt = some ta ∧ now - ta ≤ 8 * 3600000)) ∧
    isValid (setCookie (some "abc123") (some t0) initialState).2 (t0 + 28740000) = true ∧
    isValid (setCookie (some "abc123") (some t0) initialState).2 (t0 + 28860000) = false ∧
    isValid initialState now = false ∧
    isValid (deleteCookie st).2 now = false := by
  refine ⟨?_, ?_, ?_, ?_, ?_⟩
  · cases hc : st.cookie with
    | none => simp [isValid, hc]
    | some c =>
      cases ht : st.authenticatedAt with
      | none => simp [isValid, isExpired, hc, ht]
      | some ta =>
        simp only [isValid, isExpired, hc, ht, Option.isSome_some, Bool.true_and,
          Bool.not_eq_true']
        constructor
        · intro hb
          refine ⟨⟨c, rfl⟩, ta, rfl, ?_⟩
          have := of_decide_eq_false hb
          omega
        · rintro ⟨-, ta2, hta2, hle⟩
          have : ta2 = ta := by simpa using hta2.symm
          subst this
          apply decide_eq_false
          omega
  · simp [setCookie, isValid, isExpired, initialState]
  · simp [setCookie, isValid, isExpired, initialState]
  · simp [isValid, initialState]
  · simp [isValid, deleteCookie]

/-- C6: `setCookie` with an absent cookie value or an absent timestamp reports
INVALID_COOKIE_STRUCT and leaves the store exactly as it was. -/
theorem c6_setCookie_absent (st : CMState) (v : Option String) (t : Option Int)
    (h : v = none ∨ t = none) :
    setCookie v t st = (.INVALID_COOKIE_STRUCT, st) := by
  rcases h with h | h
  · subst h; cases t <;> rfl
  · subst h; cases v <;> rfl

theorem c6_witness :
    setCookie none (some 5) { cookie := some "x", authenticatedAt := some 3 } =
      (.INVALID_COOKIE_STRUCT, { cookie := some "x", authenticatedAt := some 3 }) :=
  c6_setCookie_absent _ none (some 5) (Or.inl rfl)

/-- C7: every reachable cookie-store state has the cookie and the
authenticatedAt timestamp set and cleared together: the cookie is absent iff
the timestamp is absent. -/
theorem c7_cookie_timestamp_invariant (st : CMState) (h : Reachable st) :
    st.cookie = none ↔ st.authenticatedAt = none := by
  induction h with
  | init => simp [initialState]
  | set st v t _ ih =>
    cases v with
    | none => simpa [setCookie] using ih
    | some s =>
      cases t with
      | none => simpa [setCookie] using ih
      | some ti =>
        by_cases hs : s = ""
        · simpa [setCookie, hs] using ih
        · simp [setCookie, hs]
  | del st _ _ => simp [deleteCookie]

theorem c7_witness : initialState.cookie = none ↔ initialState.authenticatedAt = none :=
  c7_cookie_timestamp_invariant initialState Reachable.init

/-- C3: when the store reports valid and the cached cookie is present,
`authenticate` reports SET with zero network calls and an unchanged store; and
two successive `authenticate` calls starting from the unauthenticated initial
state, the second within the 8-hour validity window of the first, perform
exactly one network call in total, the second call being served from cache. -/
theorem c3_authenticate_cache (st : CMState) (now : Int) (resp : AuthResponse) (c : String)
    (t1 t2 : Int) (hdr : String) (resp2 : AuthResponse)
    (h1 : isValid st now = true) (h2 : getCookie st = some c) (h3 : c ≠ "")
    (h4 : hdr ≠ "") (h5 : t2 - t1 ≤ 8 * 3600000) :
    authenticate st now resp = (.SET, 0, st) ∧
    authenticate initialState t1 { setCookieHeader := some hdr } =
      (.SET, 1, { cookie := some hdr, authenticatedAt := some t1 }) ∧
    authenticate { cookie := some hdr, authenticatedAt := some t1 } t2 resp2 =
      (.SET, 0, { cookie := some hdr, authenticatedAt := some t1 }) ∧
    (authenticate initialState t1 { setCookieHeader := some hdr }).2.1 +
      (authenticate { cookie := some hdr, authenticatedAt := some t1 } t2 resp2).2.1 = 1 := by
  have hvalid2 : isValid { cookie := some hdr, authenticatedAt := some t1 } t2 = true := by
    simp only [isValid, isExpired, Option.isSome_some, Bool.true_and, Bool.not_eq_true']
    apply decide_eq_false
    omega
  have hfirst : authenticate initialState t1 { setCookieHeader := some hdr } =
      (.SET, 1, { cookie := some hdr, authenticatedAt := some t1 }) := by
    simp [authenticate, isValid, initialState, setCookie, h4]
  have hsecond : authenticate { cookie := some hdr, authenticatedAt := some t1 } t2 resp2 =
      (.SET, 0, { cookie := some hdr, authenticatedAt := some t1 }) := by
    simp [authenticate, hvalid2, getCookie, h4]
  refine ⟨?_, hfirst, hsecond, ?_⟩
  · simp [authenticate, h1, h2, h3]
  · rw [hfirst, hsecond]
    rfl

theorem c3_witness :
    authenticate { cookie := some "sess", authenticatedAt := some 0 } 1000
        { setCookieHeader := none } =
      (.SET, 0, { cookie := some "sess", authenticatedAt := some 0 }) ∧
    authenticate initialState 0 { setCookieHeader := some "sess" } =
      (.SET, 1, { cookie := some "sess", authenticatedAt := some 0 }) ∧
    authenticate { cookie := some "sess", authenticatedAt := some 0 } 1000
        { setCookieHeader := none } =
      (.SET, 0, { cookie := some "sess", authenticatedAt := some 0 }) ∧
    (authenticate initialState 0 { setCookieHeader := some "sess" }).2.1 +
      (authenticate { cookie := some "sess", authenticatedAt := some 0 } 1000
        { setCookieHeader := none }).2.1 = 1 :=
  c3_authenticate_cache { cookie := some "sess", authenticatedAt := some 0 } 1000
    { setCookieHeader := none } "sess" 0 1000 "sess" { setCookieHeader := none }
    (by decide) rfl (by decide) (by decide) (by decide)

/-- C8: for every route descriptor whose params list is non-empty with length
N, the query builder succeeds with exactly N positional arguments and fails
with the parameter-count-mismatch error on any other count; in the mismatch
case the dispatcher propagates the same error, so no request is built. -/
theorem c8_param_count (cfg : Config) (cm : CMState) (body : Option String)
    (rte : BoltApiRoute) (ps : List String) (args : List JSVal)
    (hp : rte.params = some ps) (hne : ps ≠ []) :
    (args.length = ps.length → ∃ s, makeQueryString rte args = .ok s) ∧
    (args.length ≠ ps.length →
      makeQueryString rte args = .error ("Parameter count mismatch: expected " ++
        toString ps.length ++ " parameters, but got " ++ toString args.length ++
        " arguments.") ∧
      makeApiRequest cfg cm rte body args = .error ("Parameter count mismatch: expected " ++
        toString ps.length ++ " parameters, but got " ++ toString args.length ++
        " arguments.")) := by
  have h0 : ¬ ps.length = 0 := fun hz => hne (List.length_eq_zero.mp hz)
  constructor
  · intro hlen
    exact ⟨_, makeQueryString_ok rte ps args hp hne hlen⟩
  · intro hlen
    have hqs : makeQueryString rte args = .error ("Parameter count mismatch: expected " ++
        toString ps.length ++ " parameters, but got " ++ toString args.length ++
        " arguments.") := by
      have h1 : ps.length ≠ args.length := fun h => hlen h.symm
      simp only [makeQueryString, hp, if_neg h0, if_pos h1]
    refine ⟨hqs, ?_⟩
    simp only [makeApiRequest, hqs]

theorem c8_witness :
    ((([] : List JSVal)).length = ([":id"] : List String).length →
      ∃ s, makeQueryString BoltApiRoutes.usersById [] = .ok s) ∧
    ((([] : List JSVal)).length ≠ ([":id"] : List String).length →
      makeQueryString BoltApiRoutes.usersById [] = .error ("Parameter count mismatch: expected " ++
        toString ([":id"] : List String).length ++ " parameters, but got " ++
        toString (([] : List JSVal)).length ++ " arguments.") ∧
      makeApiRequest { tenantUrl := "https://acme.bolt.com", username := "u", password := "p" }
          initialState BoltApiRoutes.usersById none [] =
        .error ("Parameter count mismatch: expected " ++
          toString ([":id"] : List String).length ++ " parameters, but got " ++
          toString (([] : List JSVal)).length ++ " arguments.")) :=
  c8_param_count { tenantUrl := "https://acme.bolt.com", username := "u", password := "p" }
    initialState none BoltApiRoutes.usersById [":id"] [] rfl (by decide)

/-- C9: with non-empty params and a matching argument list the built query
string is the `&`-joined `key=value` pairs in declaration order, keys having a
single leading `:` stripped and values being the textual form of the argument
at the same index, all prefixed with `?`; in particular the `usersById`
descriptor with argument 42 yields exactly `?id=42`. -/
theorem c9_query_format (rte : BoltApiRoute) (ps : List String) (args : List JSVal)
    (hp : rte.params = some ps) (hne : ps ≠ []) (hlen : args.length = ps.length) :
    makeQueryString rte args = .ok ("?" ++ joinAmp (List.zipWith queryPair ps args)) ∧
    makeQueryString BoltApiRoutes.usersById [.num 42] = .ok "?id=42" :=
  ⟨makeQueryString_ok rte ps args hp hne hlen, by rfl⟩

theorem c9_witness :
    makeQueryString BoltApiRoutes.loadsById [.num 7] =
      .ok ("?" ++ joinAmp (List.zipWith queryPair [":id"] [.num 7])) ∧
    makeQueryString BoltApiRoutes.usersById [.num 42] = .ok "?id=42" :=
  c9_query_format BoltApiRoutes.loadsById [":id"] [.num 7] rfl (by decide) rfl

/-- C4: with matching parameter count, every argument value appears verbatim in
the built query string (so a literal space survives unencoded), and every
character of the output is a separator (`?`, `=`, `&`) or a character of a
stripped key or of an argument value — the builder introduces no
percent-encoding (no `%20`, no `+`). -/
theorem c4_space_verbatim (rte : BoltApiRoute) (ps : List String) (args : List JSVal)
    (i : Nat) (hp : rte.params = some ps) (hne : ps ≠ []) (hlen : args.length = ps.length)
    (hi : i < args.length) :
    ∃ pre suf,
      makeQueryString rte args = .ok (pre ++ jsToString (args.getD i (.str "")) ++ suf) ∧
      ∀ c ∈ (pre ++ jsToString (args.getD i (.str "")) ++ suf).data,
        c = '?' ∨ c = '=' ∨ c = '&' ∨
          (∃ p ∈ ps, c ∈ (stripColon p).data) ∨ (∃ a ∈ args, c ∈ (jsToString a).data) := by
  have hok := makeQueryString_ok rte ps args hp hne hlen
  have hip : i < ps.length := hlen ▸ hi
  have hiz : i < (List.zipWith queryPair ps args).length := by
    rw [List.length_zipWith]; omega
  obtain ⟨pre0, suf0, hdec⟩ := joinAmp_decomp (List.zipWith queryPair ps args) i hiz
  have hget := getD_zipWith_pair ps args i hip hi
  have heq : makeQueryString rte args =
      .ok (("?" ++ pre0 ++ stripColon (ps.getD i "") ++ "=") ++
        jsToString (args.getD i (.str "")) ++ suf0) := by
    rw [hok, hdec, hget]
    simp only [queryPair, String.append_assoc]
  exact ⟨"?" ++ pre0 ++ stripColon (ps.getD i "") ++ "=", suf0, heq,
    fun c hc => makeQueryString_chars rte ps args hp hne hlen _ heq c hc⟩

theorem c4_witness :
    makeQueryString BoltApiRoutes.loadBoardShipments [.str "New York"] =
      .ok "?load_status=New York" ∧
    ∃ pre suf,
      makeQueryString BoltApiRoutes.loadBoardShipments [.str "New York"] =
        .ok (pre ++ jsToString (([JSVal.str "New York"] : List JSVal).getD 0 (.str "")) ++ suf) ∧
      ∀ c ∈ (pre ++ jsToString (([JSVal.str "New York"] : List JSVal).getD 0 (.str "")) ++ suf).data,
        c = '?' ∨ c = '=' ∨ c = '&' ∨
          (∃ p ∈ ([":load_status"] : List String), c ∈ (stripColon p).data) ∨
          (∃ a ∈ ([JSVal.str "New York"] : List JSVal), c ∈ (jsToString a).data) :=
  ⟨by rfl,
   c4_space_verbatim BoltApiRoutes.loadBoardShipments [":load_status"] [.str "New York"] 0
     rfl (by simp) rfl (by simp)⟩

/-- C10: every ID-bearing endpoint method rejects a zero, negative, or
non-numeric identifier synchronously (no request value is produced), and
accepts every positive numeric identifier (a request is built). -/
theorem c10_id_validation (cfg : Config) (cm : CMState) (v : JSVal) :
    (((∃ n, v = JSVal.num n ∧ n ≤ 0) ∨ (∃ s, v = JSVal.str s)) →
      isErr (getLoadsById cfg cm v) = true ∧
      isErr (getLoadBreadcrumbs cfg cm v) = true ∧
      isErr (getUsersById cfg cm v) = true ∧
      isErr (getShipmentsByLoadId cfg cm v) = true ∧
      isErr (getShipToById cfg cm v) = true ∧
      isErr (getSegments cfg cm v) = true ∧
      isErr (getTrailersById cfg cm v) = true ∧
      isErr (getTrucksById cfg cm v) = true) ∧
    (∀ n : Int, v = JSVal.num n → 0 < n →
      isErr (getLoadsById cfg cm v) = false ∧
      isErr (getLoadBreadcrumbs cfg cm v) = false ∧
      isErr (getUsersById cfg cm v) = false ∧
      isErr (getShipmentsByLoadId cfg cm v) = false ∧
      isErr (getShipToById cfg cm v) = false ∧
      isErr (getSegments cfg cm v) = false ∧
      isErr (getTrailersById cfg cm v) = false ∧
      isErr (getTrucksById cfg cm v) = false) := by
  constructor
  · intro hbad
    have hv : validateIdNumber v = false := by
      rcases hbad with ⟨n, rfl, hn⟩ | ⟨s, rfl⟩
      · simp only [validateIdNumber, decide_eq_false_iff_not]; omega
      · rfl
    refine ⟨?_, ?_, ?_, ?_, ?_, ?_, ?_, ?_⟩ <;>
      simp [getLoadsById, getLoadBreadcrumbs, getUsersById, getShipmentsByLoadId,
        getShipToById, getSegments, getTrailersById, getTrucksById, hv, isErr]
  · rintro n rfl hn
    have hv : validateIdNumber (JSVal.num n) = true := by
      simp only [validateIdNumber, decide_eq_true_eq]; omega
    have hq1 := makeQueryString_ok BoltApiRoutes.loadsById [":id"] [JSVal.num n]
      rfl (by simp) rfl
    have hq2 := makeQueryString_ok BoltApiRoutes.gpsBreadcrumbsByLoadId [":load_id"]
      [JSVal.num n] rfl (by simp) rfl
    have hq3 := makeQueryString_ok BoltApiRoutes.usersById [":id"] [JSVal.num n]
      rfl (by simp) rfl
    have hq4 := makeQueryString_ok BoltApiRoutes.shipmentsByLoadId [":load_id"]
      [JSVal.num n] rfl (by simp) rfl
    have hq5 := makeQueryString_ok BoltApiRoutes.shipToById [":id"] [JSVal.num n]
      rfl (by simp) rfl
    have hq6 := makeQueryString_ok BoltApiRoutes.segments [":load_id"] [JSVal.num n]
      rfl (by simp) rfl
    have hq7 : makeQueryString BoltApiRoutes.trailers [JSVal.num n] = .ok "" := rfl
    have hq8 := makeQueryString_ok BoltApiRoutes.trucksById [":id"] [JSVal.num n]
      rfl (by simp) rfl
    refine ⟨?_, ?_, ?_, ?_, ?_, ?_, ?_, ?_⟩ <;>
      simp [getLoadsById, getLoadBreadcrumbs, getUsersById, getShipmentsByLoadId,
        getShipToById, getSegments, getTrailersById, getTrucksById, hv, isErr,
        makeApiRequest, hq1, hq2, hq3, hq4, hq5, hq6, hq7, hq8]

theorem c10_witness :
    isErr (getUsersById { tenantUrl := "https://acme.bolt.com", username := "u", password := "p" }
      initialState (JSVal.num 0)) = true ∧
    isErr (getUsersById { tenantUrl := "https://acme.bolt.com", username := "u", password := "p" }
      initialState (JSVal.num 1)) = false :=
  ⟨((c10_id_validation _ initialState (JSVal.num 0)).1
      (Or.inl ⟨0, rfl, by decide⟩)).2.2.1,
   ((c10_id_validation _ initialState (JSVal.num 1)).2 1 rfl (by decide)).2.2.1⟩

/-- C2 counterexample: with an explicit empty-string username argument and a
non-empty BOLT_USER_NAME in the environment, every value resolves non-empty
under the claimed first-non-empty precedence (`specResolveConfig`), yet the
constructor (`resolveConfig`) throws, because nullish coalescing lets the
present-but-empty explicit argument win. -/
theorem c2_counterexample :
    resolveConfig (some "") (some "pw")
        { BOLT_USER_NAME := some "bob", BOLT_TENANT_URL := some "https://acme.bolt.com",
          BOLT_USER_PASSWORD := some "pw2" } = .error missingVarsMsg ∧
    specResolveConfig (some "") (some "pw")
        { BOLT_USER_NAME := some "bob", BOLT_TENANT_URL := some "https://acme.bolt.com",
          BOLT_USER_PASSWORD := some "pw2" } =
      .ok { tenantUrl := "https://acme.bolt.com", username := "bob", password := "pw" } := by
  constructor <;> rfl

/-- C2 amended: each of the three configuration values resolves to the first
PRESENT value among the explicit constructor argument and the
environment-sourced default (an explicit empty string wins over a non-empty
environment default; the tenant base URL has no explicit argument), defaulting
to the empty string; and construction succeeds exactly when all three resolved
values are non-empty, failing with the missing-variables error otherwise. -/
theorem c2_config_resolution (u p : Option String) (env : Env) (cfg : Config) :
    (resolveConfig u p env = .ok cfg ↔
      (cfg.tenantUrl = resolvedVal none env.BOLT_TENANT_URL ∧
       cfg.username = resolvedVal u env.BOLT_USER_NAME ∧
       cfg.password = resolvedVal p env.BOLT_USER_PASSWORD ∧
       cfg.tenantUrl ≠ "" ∧ cfg.username ≠ "" ∧ cfg.password ≠ "")) ∧
    (resolveConfig u p env = .error missingVarsMsg ↔
      (resolvedVal none env.BOLT_TENANT_URL = "" ∨
       resolvedVal u env.BOLT_USER_NAME = "" ∨
       resolvedVal p env.BOLT_USER_PASSWORD = "")) := by
  have hu : (u <|> env.BOLT_USER_NAME).getD "" = resolvedVal u env.BOLT_USER_NAME := by
    cases u <;> rfl
  have hpw : (p <|> env.BOLT_USER_PASSWORD).getD "" = resolvedVal p env.BOLT_USER_PASSWORD := by
    cases p <;> rfl
  have ht : (env.BOLT_TENANT_URL).getD "" = resolvedVal none env.BOLT_TENANT_URL := rfl
  obtain ⟨ct, cu, cp⟩ := cfg
  simp only [resolveConfig]
  rw [hu, hpw, ht]
  by_cases h1 : resolvedVal none env.BOLT_TENANT_URL = "" <;>
  by_cases h2 : resolvedVal u env.BOLT_USER_NAME = "" <;>
  by_cases h3 : resolvedVal p env.BOLT_USER_PASSWORD = "" <;>
    simp [h1, h2, h3, Config.mk.injEq] <;> aesop
